import Mathlib

/-!
Verification development for the SkillSwap peer-to-peer skill-exchange
application.  The definitions below are a shallow embedding of the server's
data model (`shared/schema.ts`), the data-access layer
(`src/server/storage.ts`) and the relevant Express route handlers
(`registerRoutes`): the session status-update endpoint
`PATCH /api/sessions/:id`, the review-creation endpoint `POST /api/reviews`,
the public skill search `GET /api/search`, and the badge derivations of
`GET /api/users/:id/stats` (server) and the Dashboard page (client).

Timestamps are modelled as integers, JSON numbers (ratings) as rationals,
and nullable / possibly-absent JSON fields as `Option`.  Database tables are
modelled as lists of records; the drizzle `update ... set {status}` is an
in-place map over the matching rows.
-/

namespace SkillSwap

/-- A row of the `users` table (`shared/schema.ts`). -/
structure User where
  id : String
  username : String
  password : String
  email : String
  fullName : String
  bio : Option String
  avatarUrl : Option String
  isAdmin : Bool
  createdAt : Int
deriving DecidableEq

/-- A row of the `skills` table.  The source field `type` holds
`"offering"` or `"seeking"`. -/
structure Skill where
  id : String
  userId : String
  name : String
  description : Option String
  category : String
  type : String
  experienceLevel : Option String
  createdAt : Int
deriving DecidableEq

/-- A row of the `sessions` table (a learning-session request).  `status`
is one of `"pending"`, `"accepted"`, `"completed"`, `"cancelled"`. -/
structure Session where
  id : String
  requesterId : String
  providerId : String
  skillId : String
  status : String
  scheduledAt : Option Int
  message : Option String
  createdAt : Int
deriving DecidableEq

/-- A row of the `reviews` table.  The schema declares `rating` as an
`integer` column; the HTTP handler however only checks that the incoming
JSON value is a number in `[1,5]`, so the rating is modelled as a rational
to keep the handler's validation faithful. -/
structure Review where
  id : String
  sessionId : String
  reviewerId : String
  revieweeId : String
  rating : Rat
  comment : Option String
deriving DecidableEq

/-- The relational store: the four tables of the schema. -/
structure Store where
  users : List User
  skills : List Skill
  sessions : List Session
  reviews : List Review
deriving DecidableEq

/-- `DatabaseStorage.getSession`: `select ... where eq(sessions.id, id)`,
returning the first matching row. -/
def getSession (store : Store) (id : String) : Option Session :=
  store.sessions.find? (fun s => s.id == id)

/-- The row update performed by `storage.updateSession(id, { status })`:
only the `status` column is set. -/
def setStatus (s : Session) (st : String) : Session :=
  { s with status := st }

/-- `DatabaseStorage.updateSession` for a `{ status }` patch:
`db.update(sessions).set(data).where(eq(sessions.id, id)).returning()`
updates the matching rows and returns the first updated row (or none). -/
def updateSession (store : Store) (id st : String) : Option Session × Store :=
  let store2 : Store :=
    { store with
      sessions := store.sessions.map (fun s => if s.id == id then setStatus s st else s) }
  (store2.sessions.find? (fun s => s.id == id), store2)

/-- Outcome of the `PATCH /api/sessions/:id` handler, tagged by HTTP
status: 400 (`badRequest`), 404 (`notFound`), 403 (`forbidden`) or the
200 JSON body (`ok`, carrying the row returned by `updateSession`). -/
inductive PatchResult where
  | badRequest : String → PatchResult
  | notFound : String → PatchResult
  | forbidden : String → PatchResult
  | ok : Option Session → PatchResult
deriving DecidableEq

/-- The `PATCH /api/sessions/:id` handler.  Mirrors the source exactly:
(1) reject a target status outside `accepted|completed|cancelled` with 400;
(2) 404 when the session does not exist; (3) for `accepted`/`completed`
only the provider may act, for `cancelled` either participant; (4) persist
the new status via `updateSession` and return the updated row.  Note that
the handler never inspects the session's *current* status. -/
def patchSessionStatus (store : Store) (sessionId status userId : String) :
    PatchResult × Store :=
  if status ∉ (["accepted", "completed", "cancelled"] : List String) then
    (PatchResult.badRequest "Invalid status", store)
  else
    match getSession store sessionId with
    | none => (PatchResult.notFound "Session not found", store)
    | some s =>
      if status = "accepted" ∨ status = "completed" then
        if s.providerId ≠ userId then
          (PatchResult.forbidden "Only the provider can update this session", store)
        else
          let r := updateSession store sessionId status
          (PatchResult.ok r.1, r.2)
      else if status = "cancelled" then
        if s.providerId ≠ userId ∧ s.requesterId ≠ userId then
          (PatchResult.forbidden "Not authorized", store)
        else
          let r := updateSession store sessionId status
          (PatchResult.ok r.1, r.2)
      else
        let r := updateSession store sessionId status
        (PatchResult.ok r.1, r.2)

/-- A concrete session sitting in the `accepted` state, used to probe the
status-update endpoint on already-accepted sessions. -/
def sessAccepted : Session :=
  { id := "s1", requesterId := "alice", providerId := "bob", skillId := "k1",
    status := "accepted", scheduledAt := none, message := none, createdAt := 0 }

/-- A store holding only `sessAccepted`. -/
def storeAccepted : Store :=
  { users := [], skills := [], sessions := [sessAccepted], reviews := [] }

example :
    (patchSessionStatus storeAccepted "s1" "cancelled" "bob").1 =
      PatchResult.ok (some (setStatus sessAccepted "cancelled")) := by decide

example :
    (patchSessionStatus storeAccepted "s1" "completed" "alice").1 =
      PatchResult.forbidden "Only the provider can update this session" := by decide

/-- The JSON body of a `POST /api/reviews` request.  `none` models an
absent field; the handler treats an absent or empty string id as falsy,
and a `rating` that is not a JSON number as `none`. -/
structure ReviewRequest where
  sessionId : Option String
  revieweeId : Option String
  rating : Option Rat
  comment : Option String
deriving DecidableEq

/-- Outcome of the `POST /api/reviews` handler: 400 (`badRequest`),
403 (`forbidden`) or 201 with the created row (`created`). -/
inductive ReviewResult where
  | badRequest : String → ReviewResult
  | forbidden : String → ReviewResult
  | created : Review → ReviewResult
deriving DecidableEq

/-- `DatabaseStorage.createReview`: insert the row into `reviews`. -/
def createReview (store : Store) (r : Review) : Store :=
  { store with reviews := store.reviews ++ [r] }

/-- The `POST /api/reviews` handler.  Mirrors the source: (1) reject a
falsy `sessionId`/`revieweeId` or a rating that is not a number in
`[1,5]`; (2) reject unless the session exists with status `completed`;
(3) the reviewer must be a session participant; (4) the declared reviewee
must be `requesterId` or `providerId` (the source comment says "the other
party" but the check only tests membership); (5) insert the review.
`newId` stands for the database-generated primary key. -/
def postReview (store : Store) (req : ReviewRequest) (userId newId : String) :
    ReviewResult × Store :=
  if (req.sessionId = none ∨ req.sessionId = some "") ∨
     (req.revieweeId = none ∨ req.revieweeId = some "") ∨
     req.rating = none ∨ req.rating.getD 0 < 1 ∨ 5 < req.rating.getD 0 then
    (ReviewResult.badRequest "Invalid review data", store)
  else
    match getSession store (req.sessionId.getD "") with
    | none => (ReviewResult.badRequest "Can only review completed sessions", store)
    | some s =>
      if s.status ≠ "completed" then
        (ReviewResult.badRequest "Can only review completed sessions", store)
      else if s.requesterId ≠ userId ∧ s.providerId ≠ userId then
        (ReviewResult.forbidden "Not authorized to review this session", store)
      else if req.revieweeId.getD "" ≠ s.requesterId ∧ req.revieweeId.getD "" ≠ s.providerId then
        (ReviewResult.badRequest "Invalid reviewee", store)
      else
        let rev : Review :=
          { id := newId, sessionId := req.sessionId.getD "",
            reviewerId := userId, revieweeId := req.revieweeId.getD "",
            rating := req.rating.getD 0, comment := req.comment }
        (ReviewResult.created rev, createReview store rev)

/-- A concrete completed session between requester `alice` and provider
`bob`, used to probe the review endpoint. -/
def sessCompleted : Session :=
  { id := "s2", requesterId := "alice", providerId := "bob", skillId := "k1",
    status := "completed", scheduledAt := none, message := none, createdAt := 0 }

/-- A store holding only `sessCompleted`. -/
def storeCompleted : Store :=
  { users := [], skills := [], sessions := [sessCompleted], reviews := [] }

example :
    (postReview storeCompleted
      { sessionId := some "s2", revieweeId := some "bob", rating := some 5,
        comment := none } "alice" "r1").1 =
      ReviewResult.created
        { id := "r1", sessionId := "s2", reviewerId := "alice",
          revieweeId := "bob", rating := 5, comment := none } := by decide

/-- The shape of the user object in auth-endpoint responses:
`{ ...user, password: undefined }` — every field of the stored user with
the password removed. -/
structure UserResponse where
  id : String
  username : String
  password : Option String
  email : String
  fullName : String
  bio : Option String
  avatarUrl : Option String
  isAdmin : Bool
  createdAt : Int
deriving DecidableEq

/-- The `{ ...user, password: undefined }` spread used by the register,
login, `/api/auth/me` and admin user-listing responses. -/
def sanitizeUser (u : User) : UserResponse :=
  { id := u.id, username := u.username, password := none, email := u.email,
    fullName := u.fullName, bio := u.bio, avatarUrl := u.avatarUrl,
    isAdmin := u.isAdmin, createdAt := u.createdAt }

/-- A row of the `searchSkills` select: every skill column plus the full
joined owner `users` row (including `users.password`). -/
structure SkillWithUser where
  id : String
  userId : String
  name : String
  description : Option String
  category : String
  type : String
  experienceLevel : Option String
  createdAt : Int
  user : User
deriving DecidableEq

/-- One row of the inner join `skills ⋈ users on skills.userId = users.id`
(user ids are unique, so the first match is the row). -/
def joinRow (usersL : List User) (sk : Skill) : Option SkillWithUser :=
  (usersL.find? (fun u => u.id == sk.userId)).map (fun u =>
    { id := sk.id, userId := sk.userId, name := sk.name,
      description := sk.description, category := sk.category,
      type := sk.type, experienceLevel := sk.experienceLevel,
      createdAt := sk.createdAt, user := u })

/-- The inner join of `searchSkills`: skills without a matching user are
dropped. -/
def innerJoinSkillsUsers (skillsL : List Skill) (usersL : List User) :
    List SkillWithUser :=
  skillsL.filterMap (joinRow usersL)

/-- `ORDER BY skills.created_at DESC`: a row precedes another when its
creation time is at least as late. -/
def byCreatedDesc (a b : SkillWithUser) : Prop :=
  b.createdAt ≤ a.createdAt

instance : DecidableRel byCreatedDesc := fun a b =>
  inferInstanceAs (Decidable (b.createdAt ≤ a.createdAt))

instance : IsTotal SkillWithUser byCreatedDesc :=
  ⟨fun a b => le_total b.createdAt a.createdAt⟩

instance : IsTrans SkillWithUser byCreatedDesc :=
  ⟨fun _ _ _ h1 h2 => le_trans h2 h1⟩

/-- The `ORDER BY created_at DESC` of the base query, modelled as a stable
sort by descending creation time. -/
def sortByCreatedDesc (l : List SkillWithUser) : List SkillWithUser :=
  List.insertionSort byCreatedDesc l

/-- JavaScript `String.prototype.toLowerCase`, character-wise. -/
def lowerString (s : String) : String :=
  String.mk (s.data.map Char.toLower)

/-- Prefix test on character lists. -/
def startsWithChars : List Char → List Char → Bool
  | [], _ => true
  | _ :: _, [] => false
  | a :: as, b :: bs => a == b && startsWithChars as bs

/-- JavaScript `String.prototype.includes` on character lists: the needle
occurs as a contiguous substring of the haystack. -/
def containsCharList (needle : List Char) : List Char → Bool
  | [] => needle.isEmpty
  | c :: rest => startsWithChars needle (c :: rest) || containsCharList needle rest

/-- `hay.includes(sub)` on strings. -/
def strIncludes (hay sub : String) : Bool :=
  containsCharList sub.data hay.data

/-- The query predicate of `searchSkills`:
`s.name.toLowerCase().includes(lowerQuery) ||
 (s.description && s.description.toLowerCase().includes(lowerQuery))`.
A null or empty description is falsy and contributes nothing. -/
def matchesQuery (lowerQuery : String) (s : SkillWithUser) : Bool :=
  strIncludes (lowerString s.name) lowerQuery ||
    (match s.description with
     | none => false
     | some d => d != "" && strIncludes (lowerString d) lowerQuery)

/-- Truthiness of the optional `q` / `category` query parameters: present
and non-empty. -/
def strOptTruthy : Option String → Bool
  | none => false
  | some s => s != ""

/-- `DatabaseStorage.searchSkills`: join skills with their owners, order
newest-first, then filter in memory — by the case-insensitive query
predicate when `query` is truthy, and by exact category equality when
`category` is truthy. -/
def searchSkills (skillsL : List Skill) (usersL : List User)
    (query category : Option String) : List SkillWithUser :=
  let results := sortByCreatedDesc (innerJoinSkillsUsers skillsL usersL)
  let afterQuery :=
    if strOptTruthy query then
      results.filter (matchesQuery (lowerString (query.getD "")))
    else results
  if strOptTruthy category then
    afterQuery.filter (fun s => s.category == category.getD "")
  else afterQuery

/-- The badge list computed by the server in `GET /api/users/:id/stats`:
push `top_tutor` when the completed-session count is at least 5,
`skill_master` when the offering-skill count is at least 3,
`getting_started` when any skill exists, and `highly_rated` when the
average rating is at least 4.5 and there are at least 3 reviews. -/
def serverBadges (completedSessions offeringSkills totalSkills reviewCount : Nat)
    (averageRating : Rat) : List String :=
  (if completedSessions ≥ 5 then ["top_tutor"] else []) ++
  (if offeringSkills ≥ 3 then ["skill_master"] else []) ++
  (if totalSkills ≥ 1 then ["getting_started"] else []) ++
  (if averageRating ≥ mkRat 9 2 ∧ reviewCount ≥ 3 then ["highly_rated"] else [])

/-- The badge list computed by the client Dashboard page (displayed as
"Top Tutor", "Skill Master", "Getting Started"; identified here by the
server's badge identifiers for comparability).  The client computes no
rating-based badge. -/
def clientBadges (completedSessions offeringSkills totalSkills : Nat) : List String :=
  (if completedSessions ≥ 5 then ["top_tutor"] else []) ++
  (if offeringSkills ≥ 3 then ["skill_master"] else []) ++
  (if totalSkills ≥ 1 then ["getting_started"] else [])

example : serverBadges 0 0 0 3 5 = ["highly_rated"] := by decide

example : clientBadges 0 0 0 = [] := by decide

/-- A concrete skill owner. -/
def userCarol : User :=
  { id := "u1", username := "carol", password := "bcrypt-hash-of-secret",
    email := "carol\x40example.com", fullName := "Carol C", bio := none,
    avatarUrl := none, isAdmin := false, createdAt := 0 }

/-- A concrete offering skill owned by `userCarol`. -/
def skillPython : Skill :=
  { id := "k1", userId := "u1", name := "Python Programming",
    description := none, category := "Programming", type := "offering",
    experienceLevel := none, createdAt := 5 }

/-- A second concrete skill owned by `userCarol`. -/
def skillGuitar : Skill :=
  { id := "k2", userId := "u1", name := "Guitar",
    description := none, category := "Music", type := "offering",
    experienceLevel := none, createdAt := 9 }

example :
    searchSkills [skillPython, skillGuitar] [userCarol] (some "python") none =
      [ { id := "k1", userId := "u1", name := "Python Programming",
          description := none, category := "Programming", type := "offering",
          experienceLevel := none, createdAt := 5, user := userCarol } ] := by decide

/-- The store obtained from `storeAccepted` after the provider marks the
session `accepted` again (any successful update maps the row in place). -/
def storeAcceptedUpd : Store :=
  { users := [], skills := [], sessions := [setStatus sessAccepted "accepted"],
    reviews := [] }

/-- A well-formed review request: the requester reviews the provider of
the completed session. -/
def validReviewReq : ReviewRequest :=
  { sessionId := some "s2", revieweeId := some "bob", rating := some 5,
    comment := some "great session" }

/-- The review row the handler creates for `validReviewReq`. -/
def reviewAliceBob : Review :=
  { id := "r1", sessionId := "s2", reviewerId := "alice", revieweeId := "bob",
    rating := 5, comment := some "great session" }

/-- The store after the valid review is inserted. -/
def storeCompletedUpd : Store :=
  { users := [], skills := [], sessions := [sessCompleted],
    reviews := [reviewAliceBob] }

/-- The joined row the search returns for `skillPython`. -/
def pythonWithCarol : SkillWithUser :=
  { id := "k1", userId := "u1", name := "Python Programming",
    description := none, category := "Programming", type := "offering",
    experienceLevel := none, createdAt := 5, user := userCarol }

/-- Finding a session by id after the status-update map returns the found
session with its status replaced. -/
theorem find?_status_map (l : List Session) (id st : String) (s : Session)
    (h : l.find? (fun x => x.id == id) = some s) :
    (l.map (fun x => if x.id == id then setStatus x st else x)).find?
      (fun x => x.id == id) = some (setStatus s st) := by
  induction l with
  | nil => simp at h
  | cons a t ih =>
    by_cases ha : (a.id == id) = true
    · rw [List.find?_cons_of_pos (p := fun (x : Session) => x.id == id) _ ha] at h
      cases h
      simp only [List.map_cons, ha, if_true]
      exact List.find?_cons_of_pos (p := fun (x : Session) => x.id == id) _
        (by simpa [setStatus] using ha)
    · rw [List.find?_cons_of_neg (p := fun (x : Session) => x.id == id) _ (by simpa using ha)] at h
      simp only [List.map_cons, ha, if_false]
      rw [List.find?_cons_of_neg (p := fun (x : Session) => x.id == id) _
        (by simpa [setStatus] using ha)]
      exact ih h

/-- The first component of `updateSession` on a session found in the
store: the found session with the new status. -/
theorem updateSession_fst (store : Store) (sid st : String) (s : Session)
    (hfind : getSession store sid = some s) :
    (updateSession store sid st).1 = some (setStatus s st) := by
  simpa [updateSession] using
    find?_status_map store.sessions sid st s hfind

/-- Claim C1 counterexample: the status-update endpoint has no
terminality guard — a session whose status is `accepted` is moved to
`cancelled` by the provider, contradicting both parts of the claim. -/
theorem c1_counterexample :
    sessAccepted.status = "accepted" ∧
    (patchSessionStatus storeAccepted "s1" "cancelled" "bob").1 =
      PatchResult.ok (some (setStatus sessAccepted "cancelled")) ∧
    (patchSessionStatus storeAccepted "s1" "cancelled" "bob").2.sessions =
      [setStatus sessAccepted "cancelled"] := by decide

/-- Claim C1 (amended): the `PATCH /api/sessions/:id` handler never
inspects the session's current status.  For every existing session,
whatever its current status, a request with target `accepted` or
`completed` by the provider, or target `cancelled` by either participant,
succeeds and persists the new status; in particular `completed` and
`cancelled` sessions can be transitioned further, and an `accepted`
session can be moved to `cancelled` by either participant. -/
theorem c1_amended_no_status_guard (store : Store) (sid status uid : String)
    (s : Session) (hfind : getSession store sid = some s)
    (hauth : ((status = "accepted" ∨ status = "completed") ∧ s.providerId = uid) ∨
             (status = "cancelled" ∧ (s.providerId = uid ∨ s.requesterId = uid))) :
    (patchSessionStatus store sid status uid).1 =
      PatchResult.ok (some (setStatus s status)) ∧
    (patchSessionStatus store sid status uid).2.sessions =
      store.sessions.map (fun t => if t.id == sid then setStatus t status else t) := by
  have hupd := updateSession_fst store sid status s hfind
  have hmain : patchSessionStatus store sid status uid =
      (PatchResult.ok (updateSession store sid status).1,
       (updateSession store sid status).2) := by
    rcases hauth with ⟨hst, hp⟩ | ⟨hst, hp⟩
    · rcases hst with h | h <;> subst h <;> simp [patchSessionStatus, hfind, hp]
    · subst hst
      rcases hp with h | h <;> simp [patchSessionStatus, hfind, h]
  constructor
  · rw [hmain]
    show PatchResult.ok (updateSession store sid status).1 = _
    rw [hupd]
  · rw [hmain]
    show ((updateSession store sid status).2).sessions = _
    simp [updateSession]

/-- Claim C1 (amended) witness: the requester cancels an accepted
session. -/
theorem c1_amended_no_status_guard_witness :
    (patchSessionStatus storeAccepted "s1" "cancelled" "alice").1 =
      PatchResult.ok (some (setStatus sessAccepted "cancelled")) ∧
    (patchSessionStatus storeAccepted "s1" "cancelled" "alice").2.sessions =
      storeAccepted.sessions.map
        (fun t => if t.id == "s1" then setStatus t "cancelled" else t) :=
  c1_amended_no_status_guard storeAccepted "s1" "cancelled" "alice" sessAccepted
    (by decide) (Or.inr ⟨rfl, Or.inr rfl⟩)

/-- Claim C2: for an existing session, a target of `accepted` or
`completed` succeeds exactly for the provider and yields 403 for any
other actor, while a target of `cancelled` succeeds exactly for a
participant and yields 403 for a non-participant. -/
theorem c2_transition_authorization (store : Store) (sid uid : String)
    (s : Session) (hfind : getSession store sid = some s) :
    (∀ st, st = "accepted" ∨ st = "completed" →
      (s.providerId ≠ uid →
        (patchSessionStatus store sid st uid).1 =
          PatchResult.forbidden "Only the provider can update this session") ∧
      (s.providerId = uid →
        (patchSessionStatus store sid st uid).1 =
          PatchResult.ok (some (setStatus s st)))) ∧
    ((s.providerId ≠ uid ∧ s.requesterId ≠ uid →
      (patchSessionStatus store sid "cancelled" uid).1 =
        PatchResult.forbidden "Not authorized") ∧
     (s.providerId = uid ∨ s.requesterId = uid →
      (patchSessionStatus store sid "cancelled" uid).1 =
        PatchResult.ok (some (setStatus s "cancelled")))) := by
  refine ⟨fun st hst => ⟨fun hne => ?_, fun heq => ?_⟩, ⟨fun hne => ?_, fun hor => ?_⟩⟩
  · rcases hst with h | h <;> subst h <;>
      simp [patchSessionStatus, hfind, hne]
  · have hupd := updateSession_fst store sid st s hfind
    rcases hst with h | h <;> subst h <;>
      simp [patchSessionStatus, hfind, heq, hupd]
  · simp [patchSessionStatus, hfind, hne.1, hne.2]
  · have hupd := updateSession_fst store sid "cancelled" s hfind
    rcases hor with h | h <;>
      simp [patchSessionStatus, hfind, h, hupd]

/-- Claim C2 witness: on the accepted session of `storeAccepted`, the
requester is refused `completed` and the provider is granted it. -/
theorem c2_transition_authorization_witness :
    ((patchSessionStatus storeAccepted "s1" "completed" "alice").1 =
      PatchResult.forbidden "Only the provider can update this session") ∧
    ((patchSessionStatus storeAccepted "s1" "completed" "bob").1 =
      PatchResult.ok (some (setStatus sessAccepted "completed"))) :=
  ⟨((c2_transition_authorization storeAccepted "s1" "alice" sessAccepted
      (by decide)).1 "completed" (Or.inr rfl)).1 (by decide),
   ((c2_transition_authorization storeAccepted "s1" "bob" sessAccepted
      (by decide)).1 "completed" (Or.inr rfl)).2 (by decide)⟩

/-- Claim C6 counterexample: the target-status validity check runs before
the existence check, so a transition on an absent session with the
unrecognized target `pending` answers 400 Invalid status, not 404. -/
theorem c6_counterexample :
    getSession storeAccepted "missing" = none ∧
    (patchSessionStatus storeAccepted "missing" "pending" "bob").1 =
      PatchResult.badRequest "Invalid status" ∧
    (patchSessionStatus storeAccepted "missing" "pending" "bob").1 ≠
      PatchResult.notFound "Session not found" := by decide

/-- Claim C6 (amended): for every absent session id and every
*recognized* target status (`accepted`, `completed` or `cancelled`), the
transition fails with 404 Session not found. -/
theorem c6_absent_session_not_found (store : Store) (sid uid st : String)
    (hnone : getSession store sid = none)
    (hst : st = "accepted" ∨ st = "completed" ∨ st = "cancelled") :
    (patchSessionStatus store sid st uid).1 =
      PatchResult.notFound "Session not found" := by
  rcases hst with h | h | h <;> subst h <;>
    simp [patchSessionStatus, hnone]

/-- Claim C6 (amended) witness. -/
theorem c6_absent_session_not_found_witness :
    (patchSessionStatus storeAccepted "missing" "accepted" "bob").1 =
      PatchResult.notFound "Session not found" :=
  c6_absent_session_not_found storeAccepted "missing" "bob" "accepted"
    (by decide) (Or.inl rfl)

/-- Claim C9: a successful status transition changes nothing but the
status column of the addressed session: the users, skills and reviews
tables are untouched, and the sessions table is the pointwise map that
replaces only `status` on the matching row and leaves every other row
(and every other field of the matching row) unchanged. -/
theorem c9_transition_frame (store : Store) (sid st uid : String)
    (u : Option Session) (store' : Store)
    (h : patchSessionStatus store sid st uid = (PatchResult.ok u, store')) :
    store'.users = store.users ∧ store'.skills = store.skills ∧
    store'.reviews = store.reviews ∧
    store'.sessions =
      store.sessions.map
        (fun t => if t.id == sid then { t with status := st } else t) := by
  unfold patchSessionStatus at h
  split at h
  · simp at h
  · split at h
    · simp at h
    · split at h
      · split at h
        · simp at h
        · simp only [updateSession, Prod.mk.injEq] at h
          obtain ⟨-, h2⟩ := h
          subst h2
          exact ⟨rfl, rfl, rfl, by simp [setStatus]⟩
      · split at h
        · split at h
          · simp at h
          · simp only [updateSession, Prod.mk.injEq] at h
            obtain ⟨-, h2⟩ := h
            subst h2
            exact ⟨rfl, rfl, rfl, by simp [setStatus]⟩
        · simp only [updateSession, Prod.mk.injEq] at h
          obtain ⟨-, h2⟩ := h
          subst h2
          exact ⟨rfl, rfl, rfl, by simp [setStatus]⟩

/-- Claim C9 witness: the provider re-accepts the session of
`storeAccepted`; only the status column of row `s1` is touched. -/
theorem c9_transition_frame_witness :
    storeAcceptedUpd.users = storeAccepted.users ∧
    storeAcceptedUpd.skills = storeAccepted.skills ∧
    storeAcceptedUpd.reviews = storeAccepted.reviews ∧
    storeAcceptedUpd.sessions =
      storeAccepted.sessions.map
        (fun t => if t.id == "s1" then { t with status := "accepted" } else t) :=
  c9_transition_frame storeAccepted "s1" "accepted" "bob"
    (some (setStatus sessAccepted "accepted")) storeAcceptedUpd (by decide)

/-- Claim C3 (code bug): the handler's check only verifies that the
declared reviewee is *some* participant, although its own comment says
"Verify the reviewee is the other party".  A participant naming themself
as reviewee passes every check and the self-review is created. -/
theorem c3_self_review_accepted :
    sessCompleted.requesterId = "alice" ∧
    (postReview storeCompleted
      { sessionId := some "s2", revieweeId := some "alice", rating := some 5,
        comment := none } "alice" "r1").1 =
      ReviewResult.created
        { id := "r1", sessionId := "s2", reviewerId := "alice",
          revieweeId := "alice", rating := 5, comment := none } := by decide

/-- Claim C7 (code bug): the validation `typeof rating !== "number" ||
rating < 1 || rating > 5` does not check integrality, although the schema
declares `rating` as an `integer` column.  The non-integer rating 9/2
(= 4.5) passes validation and is handed to the insert. -/
theorem c7_noninteger_rating_accepted :
    (mkRat 9 2).den = 2 ∧ (1 : Rat) ≤ mkRat 9 2 ∧ mkRat 9 2 ≤ 5 ∧
    (postReview storeCompleted
      { sessionId := some "s2", revieweeId := some "bob",
        rating := some (mkRat 9 2), comment := none } "alice" "r2").1 =
      ReviewResult.created
        { id := "r2", sessionId := "s2", reviewerId := "alice",
          revieweeId := "bob", rating := mkRat 9 2, comment := none } := by decide

/-- Claim C8: whenever `POST /api/reviews` answers 201, the referenced
session exists with status exactly `completed`, the acting user is one of
its two participants, the review row is appended to the reviews table,
and the sessions (as well as users and skills) tables are unchanged. -/
theorem c8_review_creation_gate (store : Store) (req : ReviewRequest)
    (uid nid : String) (rev : Review) (store' : Store)
    (h : postReview store req uid nid = (ReviewResult.created rev, store')) :
    ∃ s : Session, getSession store (req.sessionId.getD "") = some s ∧
      s.status = "completed" ∧ (s.requesterId = uid ∨ s.providerId = uid) ∧
      store'.reviews = store.reviews ++ [rev] ∧
      store'.sessions = store.sessions ∧ store'.users = store.users ∧
      store'.skills = store.skills := by
  unfold postReview at h
  split at h
  · exact absurd h (by simp)
  · split at h
    · exact absurd h (by simp)
    · rename_i s heq
      split at h
      · exact absurd h (by simp)
      · rename_i hstatus
        split at h
        · exact absurd h (by simp)
        · rename_i hpart
          split at h
          · exact absurd h (by simp)
          · simp only [Prod.mk.injEq, ReviewResult.created.injEq] at h
            obtain ⟨hr, hs'⟩ := h
            subst hr
            subst hs'
            have hstat : s.status = "completed" := not_ne_iff.mp hstatus
            have hpar : s.requesterId = uid ∨ s.providerId = uid := by
              rcases not_and_or.mp hpart with h1 | h1
              · exact Or.inl (not_ne_iff.mp h1)
              · exact Or.inr (not_ne_iff.mp h1)
            exact ⟨s, heq, hstat, hpar, rfl, rfl, rfl, rfl⟩

/-- Claim C8 witness: the requester's review of the provider on the
completed session. -/
theorem c8_review_creation_gate_witness :
    ∃ s : Session,
      getSession storeCompleted (validReviewReq.sessionId.getD "") = some s ∧
      s.status = "completed" ∧
      (s.requesterId = "alice" ∨ s.providerId = "alice") ∧
      storeCompletedUpd.reviews = storeCompleted.reviews ++ [reviewAliceBob] ∧
      storeCompletedUpd.sessions = storeCompleted.sessions ∧
      storeCompletedUpd.users = storeCompleted.users ∧
      storeCompletedUpd.skills = storeCompleted.skills :=
  c8_review_creation_gate storeCompleted validReviewReq "alice" "r1"
    reviewAliceBob storeCompletedUpd (by decide)

/-- Sorting by creation time is a permutation: membership is unchanged. -/
theorem mem_sortByCreatedDesc {x : SkillWithUser} {l : List SkillWithUser} :
    x ∈ sortByCreatedDesc l ↔ x ∈ l :=
  (List.perm_insertionSort byCreatedDesc l).mem_iff

/-- Claim C4: every row returned by the public `GET /api/search` embeds
the owner's stored user record verbatim — including the bcrypt password
hash — whereas the auth endpoints' `{ ...user, password: undefined }`
spread blanks the password. -/
theorem c4_search_exposes_password (skillsL : List Skill) (usersL : List User)
    (query category : Option String) (s : SkillWithUser)
    (hmem : s ∈ searchSkills skillsL usersL query category) :
    (∃ u ∈ usersL, u.id = s.userId ∧ s.user = u ∧ s.user.password = u.password) ∧
    (sanitizeUser s.user).password = none := by
  refine ⟨?_, rfl⟩
  have hbase : s ∈ sortByCreatedDesc (innerJoinSkillsUsers skillsL usersL) := by
    unfold searchSkills at hmem
    by_cases hq : strOptTruthy query = true <;>
      by_cases hc : strOptTruthy category = true <;>
      simp only [hq, hc, if_true, if_false, List.mem_filter,
        Bool.false_eq_true] at hmem <;> tauto
  have hjoin : s ∈ innerJoinSkillsUsers skillsL usersL :=
    mem_sortByCreatedDesc.mp hbase
  obtain ⟨sk, hsk, hrow⟩ := List.mem_filterMap.mp hjoin
  unfold joinRow at hrow
  cases hfu : usersL.find? (fun u => u.id == sk.userId) with
  | none => rw [hfu] at hrow; simp at hrow
  | some u =>
    rw [hfu] at hrow
    simp only [Option.map_some', Option.some.injEq] at hrow
    subst hrow
    refine ⟨u, List.mem_of_find?_eq_some hfu, ?_, rfl, rfl⟩
    simpa using List.find?_some hfu

/-- Claim C4 witness: the unauthenticated search over Carol's skills
returns her row with the stored password hash embedded. -/
theorem c4_search_exposes_password_witness :
    (∃ u ∈ [userCarol], u.id = pythonWithCarol.userId ∧
      pythonWithCarol.user = u ∧
      pythonWithCarol.user.password = u.password) ∧
    (sanitizeUser pythonWithCarol.user).password = none :=
  c4_search_exposes_password [skillPython] [userCarol] none none
    pythonWithCarol (by decide)

/-- Claim C5 counterexample: with no skills and no completed sessions but
three reviews averaging 5, the server awards `highly_rated` while the
client Dashboard displays no badge at all — the two badge sets differ. -/
theorem c5_counterexample :
    serverBadges 0 0 0 3 5 = ["highly_rated"] ∧
    clientBadges 0 0 0 = [] := by decide

/-- Claim C5 (amended): server and client agree exactly on `top_tutor`,
`skill_master` and `getting_started` — the client badge list is the
server badge list with `highly_rated` removed; the server alone awards
`highly_rated`, exactly when the average rating is at least 4.5 and the
review count is at least 3, and the client never displays it. -/
theorem c5_badges_agree_except_highly_rated
    (completed offering total reviewCount : Nat) (avg : Rat) :
    clientBadges completed offering total =
      (serverBadges completed offering total reviewCount avg).filter
        (fun b => b != "highly_rated") ∧
    ("highly_rated" ∈ serverBadges completed offering total reviewCount avg ↔
      avg ≥ mkRat 9 2 ∧ reviewCount ≥ 3) ∧
    "highly_rated" ∉ clientBadges completed offering total := by
  unfold clientBadges serverBadges
  split_ifs with h1 h2 h3 h4 <;> simp_all

/-- Claim C10: skill search returns exactly the joined rows that pass the
case-insensitive name/description query filter (when the query is a
non-empty string) and the exact category filter (when a category is
given); the result is always ordered most-recently-created first; and
with neither filter it is exactly the full joined set in that order. -/
theorem c10_search_characterization (skillsL : List Skill) (usersL : List User)
    (query category : Option String) :
    (∀ s : SkillWithUser,
      s ∈ searchSkills skillsL usersL query category ↔
        s ∈ innerJoinSkillsUsers skillsL usersL ∧
        (strOptTruthy query = true →
          matchesQuery (lowerString (query.getD "")) s = true) ∧
        (strOptTruthy category = true → s.category = category.getD "")) ∧
    (searchSkills skillsL usersL query category).Sorted byCreatedDesc ∧
    searchSkills skillsL usersL none none =
      sortByCreatedDesc (innerJoinSkillsUsers skillsL usersL) := by
  have hbase : (sortByCreatedDesc (innerJoinSkillsUsers skillsL usersL)).Sorted
      byCreatedDesc := List.sorted_insertionSort byCreatedDesc _
  refine ⟨fun s => ?_, ?_, by simp [searchSkills, strOptTruthy]⟩
  · unfold searchSkills
    by_cases hq : strOptTruthy query = true <;>
      by_cases hc : strOptTruthy category = true <;>
      simp only [hq, hc, if_true, if_false, List.mem_filter,
        mem_sortByCreatedDesc, beq_iff_eq, Bool.false_eq_true,
        false_implies, forall_const, true_implies] <;>
      tauto
  · unfold searchSkills
    by_cases hq : strOptTruthy query = true <;>
      by_cases hc : strOptTruthy category = true <;>
      simp only [hq, hc, if_true, if_false, Bool.false_eq_true]
    · exact List.Pairwise.sublist
        ((List.filter_sublist _).trans (List.filter_sublist _)) hbase
    · exact List.Pairwise.sublist (List.filter_sublist _) hbase
    · exact List.Pairwise.sublist (List.filter_sublist _) hbase
    · exact hbase

end SkillSwap
